import Mathlib

/-!
# WalkingLoggerModule

A shallow embedding of `WalkingLoggerModule.cpp` (the logger of the walking
controllers) and a verification of its recording state machine.

Modelling conventions

* `double` is an arbitrary type `D` with a subtraction; `operator<<` on a
  `double` is an arbitrary function `fmt : D → String`.  Every theorem holds
  for every such interpretation.
* `int` members are unbounded integers.  The only arithmetic on them is
  `command.size() - 1`, evaluated when token 0 of the command exists.
* `std::ofstream` is the record `OFStream`: the open flag, the name of the file
  last opened and the characters that file holds.  Whether the file system
  grants a request to open a file is an input (`granted`) of the call; what is
  written to an open stream is in the file at once.  The error flags of the
  stream are not kept: the module never tests them, and an open that succeeds
  clears them.
* The clock (`yarp::os::Time::now()`), the calendar (`std::localtime`) and the
  non-blocking port read are inputs of the functions that consult them.
* `yError()` / `yInfo()` lines write to the log only; they are kept as
  comments at the place where they occur.
* Reading a `yarp::sig::Vector` past its end is undefined in C++: `updateModule`
  returns `none` there, and `some` result means that no such read happened.
* `close` is declared `bool` and its body ends without a `return` statement,
  which is undefined behaviour in C++: `close` has no result (`none`), and so
  has `configure` on the branches that call it.
* `yarp::os::ResourceFinder` is a null flag and a list of key/value entries;
  `Value::asDouble` is a parameter of `configure`, the literal `0.005` is the
  literal of `D`, and a port is the name it was opened under.
* A run is a list of calls (`respond` with an empty reply, or `updateModule`),
  each with the clock and calendar readings and the answer of the file system
  it would obtain.
-/

namespace WalkingLogger

/-! ## Collaborators: bottles, the output stream, the calendar -/

/-- A `yarp::os::Value`, the element of a bottle. `null` is what `Bottle::get`
hands out for an index outside the bottle. -/
inductive Value where
  | null : Value
  | int (i : Int) : Value
  | string (s : String) : Value
  | list (l : List Value) : Value

/-- The method `Value::asString`: the text of a string value, the empty string
otherwise. -/
def Value.asString : Value → String
  | Value.string s => s
  | _ => ""

/-- A `yarp::os::Bottle`: an ordered sequence of values. -/
abbrev Bottle := List Value

/-- The method `Bottle::size`. -/
def Bottle.size (b : Bottle) : Int := (List.length b : Int)

/-- The method `Bottle::get`: the value at `index`, the null value outside the bottle. -/
def Bottle.get (b : Bottle) (index : Nat) : Value := List.getD b index Value.null

/-- The method `Bottle::addInt`. -/
def Bottle.addInt (b : Bottle) (x : Int) : Bottle := b ++ [Value.int x]

/-- A `std::ofstream` together with the file it was last attached to. -/
structure OFStream where
  is_open : Bool
  path : String
  contents : String
deriving DecidableEq, Repr

/-- The method `ofstream::open`, `granted` telling whether the file system lets
the file be created: if so the stream is attached to `fileName`, created empty
(or truncated). On a stream that is already open, or when the file system
refuses, the call fails: the stream stays as it was and no file is created. -/
def OFStream.open (st : OFStream) (fileName : String) (granted : Bool) : OFStream :=
  if st.is_open then st
  else if granted then { is_open := true, path := fileName, contents := "" }
  else st

/-- The method `ofstream::close`. The file keeps what was written. -/
def OFStream.close (st : OFStream) : OFStream :=
  { st with is_open := false }

/-- The call `operator<<` with a piece of text: appended to the file when the stream is
open, lost otherwise. -/
def OFStream.write (st : OFStream) (text : String) : OFStream :=
  if st.is_open then { st with contents := st.contents ++ text } else st

/-- The manipulator `std::endl`: a newline (and a flush). -/
def OFStream.endl (st : OFStream) : OFStream := st.write "\n"

/-- The fields of `std::tm` that the file name uses, as `std::localtime` fills
them: `tm_mon` counts from 0 and `tm_year` from 1900. -/
structure Tm where
  tm_sec : Nat
  tm_min : Nat
  tm_hour : Nat
  tm_mday : Nat
  tm_mon : Nat
  tm_year : Nat
deriving DecidableEq, Repr

/-- A decimal number written on at least two digits (`%m`, `%d`, `%H`, `%M`,
`%S`). -/
def pad2 (n : Nat) : String :=
  if n < 10 then "0" ++ toString n else toString n

/-- The text of `std::put_time(&tm, "%Y_%m_%d_%H_%M_%S")`. -/
def put_time (tm : Tm) : String :=
  toString (tm.tm_year + 1900) ++ "_" ++ pad2 (tm.tm_mon + 1) ++ "_" ++ pad2 tm.tm_mday
    ++ "_" ++ pad2 tm.tm_hour ++ "_" ++ pad2 tm.tm_min ++ "_" ++ pad2 tm.tm_sec

/-- A YARP port: the name it is open under, `none` while closed. -/
abbrev Port := Option String

/-! ## The module -/

/-- The data members of `WalkingLoggerModule` (and the module name kept by
`RFModule`). -/
structure WalkingLoggerModule (D : Type) where
  m_dT : D
  m_stream : OFStream
  m_dataPort : Port
  m_rpcPort : Port
  m_numberOfValues : Int
  m_time0 : D
  name : String

/-- What `respond` leaves behind: its return value, the reply bottle and the
module. -/
structure RespondResult (D : Type) where
  ret : Bool
  reply : Bottle
  self : WalkingLoggerModule D

variable {D : Type}

/-- The loop `for(int i = 0; i < m_numberOfValues; i++) head += command.get(i + 1).asString() + " ";`
with `todo` iterations still to run from index `i`. -/
def headLoop (command : Bottle) : Nat → Nat → String → String
  | 0, _, head => head
  | todo + 1, i, head =>
    headLoop command todo (i + 1) (head ++ ((Bottle.get command (i + 1)).asString ++ " "))

/-- The method `WalkingLoggerModule::respond`, with the clock reading `now`, the
local calendar time `tm` and the answer `granted` of the file system that the
`record` branch would obtain. The result of `m_stream.open` is not tested. -/
def respond (now : D) (tm : Tm) (granted : Bool) (self : WalkingLoggerModule D)
    (command reply : Bottle) : RespondResult D :=
  if (Bottle.get command 0).asString = "quit" then
    if !self.m_stream.is_open then
      -- yError: the stream is not open
      { ret := true, reply := Bottle.addInt reply 0, self := self }
    else
      -- yInfo: the stream is closed
      { ret := true, reply := Bottle.addInt reply 1,
        self := { self with m_stream := self.m_stream.close } }
  else if (Bottle.get command 0).asString = "record" then
    if self.m_stream.is_open then
      -- yError: the stream is already open
      { ret := false, reply := Bottle.addInt reply 0, self := self }
    else
      let m_numberOfValues : Int := Bottle.size command - 1
      let head : String := headLoop command (Int.toNat m_numberOfValues) 0 "time "
      -- yInfo: the following data will be stored
      let m_time0 : D := now
      let fileName : String := "Dataset_" ++ put_time tm ++ ".txt"
      let m_stream : OFStream := ((self.m_stream.open fileName granted).write head).endl
      { ret := true, reply := Bottle.addInt reply 1,
        self := { self with
          m_numberOfValues := m_numberOfValues, m_time0 := m_time0, m_stream := m_stream } }
  else
    -- yError: unknown command
    { ret := false, reply := Bottle.addInt reply 0, self := self }

/-- The loop `for(int i = 0; i < m_numberOfValues; i++) m_stream << (*data)[i] << " ";`
with `todo` iterations still to run from index `i`; `none` when an index falls
outside the vector. -/
def writeLoop (fmt : D → String) (data : List D) : Nat → Nat → OFStream → Option OFStream
  | 0, _, st => some st
  | todo + 1, i, st =>
    match data[i]? with
    | none => none
    | some x => writeLoop fmt data todo (i + 1) ((st.write (fmt x)).write " ")

/-- The method `WalkingLoggerModule::updateModule`: `read` is what `m_dataPort.read(false)`
yields (`none` for `NULL`), `now` the clock reading the write branch would
obtain. -/
def updateModule [Sub D] (fmt : D → String) (now : D) (read : Option (List D))
    (self : WalkingLoggerModule D) : Option (Bool × WalkingLoggerModule D) :=
  match read with
  | some data =>
    if !self.m_stream.is_open then
      -- yError: no stream is open
      some (false, self)
    else if (List.length data : Int) ≠ self.m_numberOfValues then
      -- yError: the size of the vector is different
      some (false, self)
    else
      let time : D := now - self.m_time0
      let st := (self.m_stream.write (fmt time)).write " "
      match writeLoop fmt data (Int.toNat self.m_numberOfValues) 0 st with
      | none => none
      | some st => some (true, { self with m_stream := st.endl })
  | none => some (true, self)

/-- The method `WalkingLoggerModule::getPeriod`. -/
def getPeriod (self : WalkingLoggerModule D) : D := self.m_dT

/-- The statements of the body of `WalkingLoggerModule::close`: the module they
leave when control reaches the closing brace. -/
def closeStatements (self : WalkingLoggerModule D) : WalkingLoggerModule D :=
  -- close the stream (if it is open)
  let m_stream : OFStream :=
    if self.m_stream.is_open then self.m_stream.close else self.m_stream
  -- close the ports
  { self with m_stream := m_stream, m_dataPort := none, m_rpcPort := none }

/-- The method `WalkingLoggerModule::close`, declared to return `bool`. After
its statements the body ends without a `return` statement; flowing off the end
of such a function is undefined behaviour, so the call has no result: `none`,
whatever module the statements left. -/
def close (self : WalkingLoggerModule D) : Option (Bool × WalkingLoggerModule D) :=
  match closeStatements self with
  | _ => none

/-- The method `Value::isString`. -/
def Value.isString : Value → Bool
  | Value.string _ => true
  | _ => false

/-- A `yarp::os::ResourceFinder` as `configure` consults it: whether it is
null, and the value stored under each key (the first entry with the key). -/
structure ResourceFinder where
  isNull : Bool
  entries : List (String × Value)

/-- The call `rf.check(key, value)`: the value under `key`, `none` when the key
is missing. -/
def ResourceFinder.check (rf : ResourceFinder) (key : String) : Option Value :=
  List.lookup key rf.entries

/-- The method `WalkingLoggerModule::configure`. A number stored in a `Value`
is read through `asDouble` (`Value::asDouble`); `Value(0.005).asDouble()` is the
literal `0.005` of `D`. The result is `none` where the behaviour is undefined:
on the branches that call `close`. The results of the two port `open` calls are
not tested. -/
def configure [OfScientific D] (asDouble : Value → D) (rf : ResourceFinder)
    (self : WalkingLoggerModule D) : Option (Bool × WalkingLoggerModule D) :=
  -- check if the configuration file is empty
  if rf.isNull then
    some (false, self)
  else
    -- set the module name
    match rf.check "name" with
    | none =>
      match close self with
      | none => none
      | some (_, self) => some (false, self)
    | some value =>
      if !value.isString then
        match close self with
        | none => none
        | some (_, self) => some (false, self)
      else
        let self := { self with name := value.asString }
        -- set data port name
        match rf.check "data_port_name" with
        | none => some (false, self)
        | some value =>
          if !value.isString then
            some (false, self)
          else
            let self := { self with m_dataPort := some ("/" ++ self.name ++ value.asString) }
            -- set rpc port name
            match rf.check "rpc_port_name" with
            | none => some (false, self)
            | some value =>
              if !value.isString then
                some (false, self)
              else
                let self := { self with m_rpcPort := some ("/" ++ self.name ++ value.asString) }
                -- set the RFModule period
                let m_dT : D :=
                  match rf.check "sampling_time" with
                  | some v => asDouble v
                  | none => 0.005
                some (true, { self with m_dT := m_dT })

/-- The header loop of `respond` with every `command.get(i + 1)` required to
fall inside the bottle: `none` as soon as one does not. -/
def headLoopChecked (command : Bottle) : Nat → Nat → String → Option String
  | 0, _, head => some head
  | todo + 1, i, head =>
    match command[i + 1]? with
    | none => none
    | some v => headLoopChecked command todo (i + 1) (head ++ (v.asString ++ " "))

/-! ## Runs of the module -/

/-- One call into the module: a command handed to `respond` together with an
empty reply, or one tick of `updateModule`. Each carries the clock reading (and
the calendar reading and the answer of the file system) the call would obtain. -/
inductive Event (D : Type) where
  | command (now : D) (tm : Tm) (granted : Bool) (command : Bottle) : Event D
  | tick (now : D) (read : Option (List D)) : Event D

/-- What a call hands back: the return value and reply of `respond`, or the
return value of `updateModule`. -/
inductive Outcome where
  | replied (ret : Bool) (reply : Bottle) : Outcome
  | ticked (ret : Bool) : Outcome

/-- One call on the module; `none` when `updateModule` reads outside the vector. -/
def step [Sub D] (fmt : D → String) (e : Event D) (self : WalkingLoggerModule D) :
    Option (Outcome × WalkingLoggerModule D) :=
  match e with
  | Event.command now tm granted command =>
    some (Outcome.replied (respond now tm granted self command []).ret
            (respond now tm granted self command []).reply,
          (respond now tm granted self command []).self)
  | Event.tick now read =>
    match updateModule fmt now read self with
    | none => none
    | some (ret, next) => some (Outcome.ticked ret, next)

/-- The calls `events` made one after the other: what each handed back and the
module at the end. -/
def run [Sub D] (fmt : D → String) :
    List (Event D) → WalkingLoggerModule D → Option (List Outcome × WalkingLoggerModule D)
  | [], self => some ([], self)
  | e :: rest, self =>
    match step fmt e self with
    | none => none
    | some (o, next) =>
      match run fmt rest next with
      | none => none
      | some (os, last) => some (o :: os, last)

/-- The header line for the column names `names`: the word `time`, then each
name, each followed by one space, then a newline. -/
def headerText (names : List String) : String :=
  "time " ++ String.join (names.map (fun c => c ++ " ")) ++ "\n"

/-- The data line for the elapsed time `elapsed` and the values `data`: each
field, as text, followed by one space, then a newline. -/
def rowText (fmt : D → String) (elapsed : D) (data : List D) : String :=
  fmt elapsed ++ " " ++ String.join (data.map (fun v => fmt v ++ " ")) ++ "\n"

/-- The number `n` below 100 written with exactly two decimal digits. -/
def twoDigits (n : Nat) : String :=
  String.mk [Nat.digitChar (n / 10), Nat.digitChar (n % 10)]

/-- The ticks among `ticks` that carry a vector of exactly `count` values, each
with its clock reading. -/
def acceptedTicks (count : Int) (ticks : List (D × Option (List D))) : List (D × List D) :=
  ticks.filterMap (fun p =>
    match p.2 with
    | some data => if (data.length : Int) = count then some (p.1, data) else none
    | none => none)

/-- A formatter for the instance `D = Int`: the decimal text of the number. -/
def fmtInt (x : Int) : String := toString x

/-- A module that never recorded: stream closed, count and start time stale. -/
def closedModule : WalkingLoggerModule Int :=
  { m_dT := 5, m_stream := { is_open := false, path := "", contents := "" },
    m_dataPort := some "/logger/data:i", m_rpcPort := some "/logger/rpc",
    m_numberOfValues := 7, m_time0 := 3, name := "logger" }

/-- A module recording two columns since time 100. -/
def openModule : WalkingLoggerModule Int :=
  { m_dT := 5,
    m_stream := { is_open := true, path := "Dataset_2018_01_03_09_08_07.txt",
                  contents := "time x y \n" },
    m_dataPort := some "/logger/data:i", m_rpcPort := some "/logger/rpc",
    m_numberOfValues := 2, m_time0 := 100, name := "logger" }

/-- A calendar reading: 3 January 2018, 09:08:07. -/
def someTm : Tm :=
  { tm_sec := 7, tm_min := 8, tm_hour := 9, tm_mday := 3, tm_mon := 0, tm_year := 118 }

/-- A conversion of bottle values into `D = ℚ`: integers as themselves,
anything else as zero. -/
def asRat : Value → ℚ
  | Value.int i => (i : ℚ)
  | _ => 0

/-- A configuration with the three required fields and a sampling time. -/
def someConfig : ResourceFinder :=
  { isNull := false,
    entries := [("name", Value.string "logger"), ("data_port_name", Value.string "/data:i"),
                ("rpc_port_name", Value.string "/rpc"), ("sampling_time", Value.int 2)] }

/-- A configuration that is not null and lacks the field `name`. -/
def namelessConfig : ResourceFinder :=
  { isNull := false,
    entries := [("data_port_name", Value.string "/data:i"),
                ("rpc_port_name", Value.string "/rpc")] }

/-- A module before `configure`, for `D = ℚ`. -/
def freshModule : WalkingLoggerModule ℚ :=
  { m_dT := 0, m_stream := { is_open := false, path := "", contents := "" },
    m_dataPort := none, m_rpcPort := none, m_numberOfValues := 0, m_time0 := 0, name := "" }

theorem join_cons (a : String) (l : List String) :
    String.join (a :: l) = a ++ String.join l := by
  apply String.ext
  simp [String.data_join]

theorem join_nil : String.join [] = "" := rfl

theorem get_append_length (pre rest : List Value) (v : Value) :
    Bottle.get (pre ++ v :: rest) pre.length = v := by
  rw [Bottle.get, List.getD_eq_getElem?_getD, List.getElem?_append_right (Nat.le_refl _)]
  simp

/-- The header loop run over the tokens `rest` that follow the first `i + 1`
tokens appends each of them, as text, followed by one space. -/
theorem headLoop_append (rest : List Value) :
    ∀ (pre : List Value) (i : Nat) (head : String), pre.length = i + 1 →
      headLoop (pre ++ rest) rest.length i head
        = head ++ String.join (rest.map (fun v => v.asString ++ " ")) := by
  induction rest with
  | nil => intro pre i head _; simp [headLoop, join_nil]
  | cons v rest ih =>
    intro pre i head hpre
    have hget : Bottle.get (pre ++ v :: rest) (i + 1) = v := by
      rw [← hpre]; exact get_append_length pre rest v
    have hsplit : pre ++ v :: rest = (pre ++ [v]) ++ rest := by simp
    simp only [List.length_cons, headLoop, hget, List.map_cons, join_cons]
    rw [hsplit, ih (pre ++ [v]) (i + 1) _ (by simp [hpre]), String.append_assoc]

/-- The write loop run over the elements `rest` that follow the first `i`
elements of the vector reads inside the vector and appends each element, as
text, followed by one space. -/
theorem writeLoop_append (fmt : D → String) (rest : List D) :
    ∀ (pre : List D) (i : Nat) (st : OFStream), pre.length = i → st.is_open = true →
      writeLoop fmt (pre ++ rest) rest.length i st
        = some { st with
            contents := st.contents ++ String.join (rest.map (fun v => fmt v ++ " ")) } := by
  induction rest with
  | nil => intro pre i st _ _; simp [writeLoop, join_nil]
  | cons v rest ih =>
    intro pre i st hpre hopen
    have hget : (pre ++ v :: rest)[i]? = some v := by
      rw [← hpre, List.getElem?_append_right (Nat.le_refl _)]; simp
    have hsplit : pre ++ v :: rest = (pre ++ [v]) ++ rest := by simp
    simp only [List.length_cons, writeLoop, hget, List.map_cons, join_cons]
    rw [hsplit, ih (pre ++ [v]) (i + 1) _ (by simp [hpre]) (by simp [OFStream.write, hopen])]
    simp [OFStream.write, hopen, String.append_assoc]

/-- What `respond` does with a `record` command on a closed stream when the
file system grants the file. -/
theorem respond_record_closed (now : D) (tm : Tm) (self : WalkingLoggerModule D)
    (args : List Value) (reply : Bottle) (hclosed : self.m_stream.is_open = false) :
    respond now tm true self (Value.string "record" :: args) reply
      = { ret := true, reply := Bottle.addInt reply 1,
          self := { self with
            m_numberOfValues := (args.length : Int)
            m_time0 := now
            m_stream :=
              { is_open := true, path := "Dataset_" ++ put_time tm ++ ".txt",
                contents :=
                  "time " ++ String.join (args.map (fun v => v.asString ++ " ")) ++ "\n" } } } := by
  have hloop := headLoop_append args [Value.string "record"] 0 "time " rfl
  simp only [List.singleton_append] at hloop
  have hq : ¬ ("record" = "quit") := by decide
  simp [respond, Bottle.get, Value.asString, Bottle.size, hclosed, hq, hloop,
    OFStream.open, OFStream.write, OFStream.endl]

/-- What `respond` does with a `record` command on a closed stream when the
file system refuses the file: count and start time are stored, the stream stays
as it was, and the command is answered as if the session had been opened. -/
theorem respond_record_refused (now : D) (tm : Tm) (self : WalkingLoggerModule D)
    (args : List Value) (reply : Bottle) (hclosed : self.m_stream.is_open = false) :
    respond now tm false self (Value.string "record" :: args) reply
      = { ret := true, reply := Bottle.addInt reply 1,
          self := { self with
            m_numberOfValues := (args.length : Int)
            m_time0 := now } } := by
  have hq : ¬ ("record" = "quit") := by decide
  simp [respond, Bottle.get, Value.asString, Bottle.size, hclosed, hq,
    OFStream.open, OFStream.write, OFStream.endl]

/-- A command whose token 0 reads `record` is the string `record` followed by
its arguments. -/
theorem record_command_shape (command : Bottle)
    (hcmd : (Bottle.get command 0).asString = "record") :
    command = Value.string "record" :: command.tail := by
  cases command with
  | nil => exact absurd hcmd (by decide)
  | cons v args =>
    cases v with
    | string s =>
      have hs : s = "record" := by simpa [Bottle.get, Value.asString] using hcmd
      simp [hs]
    | null => exact absurd hcmd (by simp [Bottle.get, Value.asString])
    | int i => exact absurd hcmd (by simp [Bottle.get, Value.asString])
    | list l => exact absurd hcmd (by simp [Bottle.get, Value.asString])

/-! ## The claims -/

/-- C3: on an open session expecting `k` values, a tick that receives a vector
whose length is not `k` (shorter or longer) returns failure and leaves the
module as it was: nothing appended, session still open, same count and start
time. -/
theorem tick_rejects_wrong_length [Sub D] (fmt : D → String) (now : D) (data : List D)
    (self : WalkingLoggerModule D) (hopen : self.m_stream.is_open = true)
    (hlen : (data.length : Int) ≠ self.m_numberOfValues) :
    updateModule fmt now (some data) self = some (false, self) := by
  simp [updateModule, hopen, hlen]

theorem tick_rejects_wrong_length_witness :
    openModule.m_stream.is_open = true
      ∧ (([7, 9, 11] : List Int).length : Int) ≠ openModule.m_numberOfValues
      ∧ (([7] : List Int).length : Int) ≠ openModule.m_numberOfValues
      ∧ updateModule fmtInt (130 : Int) (some [7, 9, 11]) openModule = some (false, openModule)
      ∧ updateModule fmtInt (130 : Int) (some [7]) openModule = some (false, openModule) :=
  ⟨rfl, by decide, by decide,
    tick_rejects_wrong_length fmtInt (130 : Int) [7, 9, 11] openModule rfl (by decide),
    tick_rejects_wrong_length fmtInt (130 : Int) [7] openModule rfl (by decide)⟩

/-- C4: on an open session, a `record` command with any arguments leaves the
module unchanged (still open, same file and contents, same count and start
time), appends the status 0 to the reply and returns false. -/
theorem record_on_open_rejected (now : D) (tm : Tm) (granted : Bool)
    (self : WalkingLoggerModule D) (command reply : Bottle) (hopen : self.m_stream.is_open = true)
    (hcmd : (Bottle.get command 0).asString = "record") :
    respond now tm granted self command reply
      = { ret := false, reply := Bottle.addInt reply 0, self := self } := by
  have hq : ¬ ("record" = "quit") := by decide
  simp [respond, hcmd, hopen, hq]

theorem record_on_open_rejected_witness :
    openModule.m_stream.is_open = true
      ∧ (Bottle.get [Value.string "record", Value.string "z"] 0).asString = "record"
      ∧ respond (250 : Int) someTm true openModule [Value.string "record", Value.string "z"] []
        = { ret := false, reply := [Value.int 0], self := openModule } :=
  ⟨rfl, rfl,
    record_on_open_rejected (250 : Int) someTm true openModule
      [Value.string "record", Value.string "z"] [] rfl rfl⟩

/-- C5: on an open session, `quit` closes the stream without writing anything
(file name and contents are kept, nothing else changes), appends the status 1
to the reply and returns true; in the state it leaves, every tick that receives
a vector, of any length, returns failure and changes nothing. -/
theorem quit_on_open_closes [Sub D] (now : D) (tm : Tm) (granted : Bool)
    (self : WalkingLoggerModule D) (command reply : Bottle) (hopen : self.m_stream.is_open = true)
    (hcmd : (Bottle.get command 0).asString = "quit") :
    respond now tm granted self command reply
        = { ret := true, reply := Bottle.addInt reply 1,
            self := { self with m_stream := { self.m_stream with is_open := false } } }
      ∧ ∀ (fmt : D → String) (later : D) (data : List D),
          updateModule fmt later (some data) (respond now tm granted self command reply).self
            = some (false, (respond now tm granted self command reply).self) := by
  have hres : respond now tm granted self command reply
      = { ret := true, reply := Bottle.addInt reply 1,
          self := { self with m_stream := { self.m_stream with is_open := false } } } := by
    simp [respond, hcmd, hopen, OFStream.close]
  refine ⟨hres, ?_⟩
  intro fmt later data
  rw [hres]
  simp [updateModule]

theorem quit_on_open_closes_witness :
    openModule.m_stream.is_open = true
      ∧ (Bottle.get [Value.string "quit"] 0).asString = "quit"
      ∧ respond (250 : Int) someTm true openModule [Value.string "quit"] []
        = { ret := true, reply := [Value.int 1],
            self := { openModule with
              m_stream := { is_open := false, path := "Dataset_2018_01_03_09_08_07.txt",
                            contents := "time x y \n" } } } :=
  ⟨rfl, rfl,
    (quit_on_open_closes (250 : Int) someTm true openModule [Value.string "quit"] [] rfl rfl).1⟩

/-- C6: on a closed session, `quit` appends the status 0 to the reply, leaves
the module exactly as it was (closed, nothing written or created) and still
returns true. -/
theorem quit_on_closed_noop (now : D) (tm : Tm) (granted : Bool)
    (self : WalkingLoggerModule D) (command reply : Bottle) (hclosed : self.m_stream.is_open = false)
    (hcmd : (Bottle.get command 0).asString = "quit") :
    respond now tm granted self command reply
      = { ret := true, reply := Bottle.addInt reply 0, self := self } := by
  simp [respond, hcmd, hclosed]

theorem quit_on_closed_noop_witness :
    closedModule.m_stream.is_open = false
      ∧ (Bottle.get [Value.string "quit"] 0).asString = "quit"
      ∧ respond (250 : Int) someTm true closedModule [Value.string "quit"] []
        = { ret := true, reply := [Value.int 0], self := closedModule } :=
  ⟨rfl, rfl,
    quit_on_closed_noop (250 : Int) someTm true closedModule [Value.string "quit"] [] rfl rfl⟩

/-- C7: on a closed session (the state before any `record` included), a tick
that receives a vector of any length returns failure and leaves the module
exactly as it was: the vector is neither written nor kept. -/
theorem tick_on_closed_drops [Sub D] (fmt : D → String) (now : D) (data : List D)
    (self : WalkingLoggerModule D) (hclosed : self.m_stream.is_open = false) :
    updateModule fmt now (some data) self = some (false, self) := by
  simp [updateModule, hclosed]

theorem tick_on_closed_drops_witness :
    closedModule.m_stream.is_open = false
      ∧ updateModule fmtInt (130 : Int) (some [7, 9]) closedModule = some (false, closedModule) :=
  ⟨rfl, tick_on_closed_drops fmtInt (130 : Int) [7, 9] closedModule rfl⟩

/-- C8: in every state, open or closed, a tick whose non-blocking read yields no
vector returns success and leaves the module exactly as it was (open flag,
count, start time and sink contents included). -/
theorem tick_without_data_noop [Sub D] (fmt : D → String) (now : D)
    (self : WalkingLoggerModule D) :
    updateModule fmt now none self = some (true, self) := by
  simp [updateModule]

/-- C9: in every state, a command whose token 0 reads neither `quit` nor
`record` gets the status 0 appended to the reply, returns false and leaves the
module exactly as it was; the command with no token is such a command. -/
theorem unknown_command_rejected (now : D) (tm : Tm) (granted : Bool)
    (self : WalkingLoggerModule D) (command reply : Bottle) (hquit : (Bottle.get command 0).asString ≠ "quit")
    (hrecord : (Bottle.get command 0).asString ≠ "record") :
    respond now tm granted self command reply
        = { ret := false, reply := Bottle.addInt reply 0, self := self }
      ∧ respond now tm granted self [] reply
        = { ret := false, reply := Bottle.addInt reply 0, self := self } := by
  constructor
  · simp [respond, hquit, hrecord]
  · have h1 : ¬ ("" = "quit") := by decide
    have h2 : ¬ ("" = "record") := by decide
    simp [respond, Bottle.get, Value.asString, h1, h2]

theorem unknown_command_rejected_witness :
    (Bottle.get [Value.string "stop", Value.int 3] 0).asString ≠ "quit"
      ∧ (Bottle.get [Value.string "stop", Value.int 3] 0).asString ≠ "record"
      ∧ respond (250 : Int) someTm true openModule [Value.string "stop", Value.int 3] []
        = { ret := false, reply := [Value.int 0], self := openModule } :=
  ⟨by decide, by decide,
    (unknown_command_rejected (250 : Int) someTm true openModule
      [Value.string "stop", Value.int 3] [] (by decide) (by decide)).1⟩

/-- C10, as amended: on a closed session, whatever count and start time it
still holds, a `record` command handled at clock time `now` stores the count
equal to the number of tokens after the command name and the start time equal
to `now`, appends the status 1 to the reply and returns true; the session is
left open exactly when the file system grants the file. -/
theorem record_on_closed_opens (now : D) (tm : Tm) (granted : Bool)
    (self : WalkingLoggerModule D) (command reply : Bottle)
    (hclosed : self.m_stream.is_open = false)
    (hcmd : (Bottle.get command 0).asString = "record") :
    (respond now tm granted self command reply).ret = true
      ∧ (respond now tm granted self command reply).reply = Bottle.addInt reply 1
      ∧ (respond now tm granted self command reply).self.m_stream.is_open = granted
      ∧ (respond now tm granted self command reply).self.m_numberOfValues
          = (command.tail.length : Int)
      ∧ (respond now tm granted self command reply).self.m_time0 = now := by
  rw [record_command_shape command hcmd]
  cases granted with
  | true =>
    rw [respond_record_closed now tm self command.tail reply hclosed]
    simp
  | false =>
    rw [respond_record_refused now tm self command.tail reply hclosed]
    simp [hclosed]

theorem record_on_closed_opens_witness :
    closedModule.m_stream.is_open = false
      ∧ (Bottle.get [Value.string "record", Value.string "x", Value.string "y"] 0).asString
          = "record"
      ∧ (respond (250 : Int) someTm true closedModule
          [Value.string "record", Value.string "x", Value.string "y"] []).self.m_stream.is_open
          = true
      ∧ (respond (250 : Int) someTm true closedModule
          [Value.string "record", Value.string "x", Value.string "y"] []).self.m_numberOfValues
          = 2
      ∧ (respond (250 : Int) someTm true closedModule
          [Value.string "record", Value.string "x", Value.string "y"] []).self.m_time0 = 250 :=
  ⟨rfl, rfl,
    (record_on_closed_opens (250 : Int) someTm true closedModule
      [Value.string "record", Value.string "x", Value.string "y"] [] rfl rfl).2.2.1,
    (record_on_closed_opens (250 : Int) someTm true closedModule
      [Value.string "record", Value.string "x", Value.string "y"] [] rfl rfl).2.2.2.1,
    (record_on_closed_opens (250 : Int) someTm true closedModule
      [Value.string "record", Value.string "x", Value.string "y"] [] rfl rfl).2.2.2.2⟩

/-- C10 as first stated fails: when the file system refuses the file, `record x y`
on a closed session is answered 1 and returns true with count 2 and start time
250 stored, but the session is not open. -/
theorem record_on_closed_opens_refuted :
    closedModule.m_stream.is_open = false
      ∧ (respond (250 : Int) someTm false closedModule
          [Value.string "record", Value.string "x", Value.string "y"] []).self.m_stream.is_open
          = false
      ∧ (respond (250 : Int) someTm false closedModule
          [Value.string "record", Value.string "x", Value.string "y"] []).ret = true
      ∧ (respond (250 : Int) someTm false closedModule
          [Value.string "record", Value.string "x", Value.string "y"] []).reply
          = [Value.int 1]
      ∧ (respond (250 : Int) someTm false closedModule
          [Value.string "record", Value.string "x", Value.string "y"] []).self.m_numberOfValues
          = 2 :=
  ⟨rfl, rfl, rfl, rfl, rfl⟩

/-! ## Lemmas shared by the later claims -/

theorem updateModule_none [Sub D] (fmt : D → String) (now : D)
    (self : WalkingLoggerModule D) :
    updateModule fmt now none self = some (true, self) := by
  simp [updateModule]

theorem updateModule_closed [Sub D] (fmt : D → String) (now : D) (data : List D)
    (self : WalkingLoggerModule D) (hclosed : self.m_stream.is_open = false) :
    updateModule fmt now (some data) self = some (false, self) := by
  simp [updateModule, hclosed]

theorem updateModule_mismatch [Sub D] (fmt : D → String) (now : D) (data : List D)
    (self : WalkingLoggerModule D) (hopen : self.m_stream.is_open = true)
    (hlen : (data.length : Int) ≠ self.m_numberOfValues) :
    updateModule fmt now (some data) self = some (false, self) := by
  simp [updateModule, hopen, hlen]

theorem updateModule_accept [Sub D] (fmt : D → String) (now : D) (data : List D)
    (self : WalkingLoggerModule D) (hopen : self.m_stream.is_open = true)
    (hlen : (data.length : Int) = self.m_numberOfValues) :
    updateModule fmt now (some data) self
      = some (true, { self with
          m_stream := { self.m_stream with
            contents := self.m_stream.contents ++ rowText fmt (now - self.m_time0) data } }) := by
  have hloop := writeLoop_append fmt data [] 0
    { is_open := true, path := self.m_stream.path,
      contents := self.m_stream.contents ++ (fmt (now - self.m_time0) ++ " ") } rfl rfl
  simp only [List.nil_append] at hloop
  have hcount : Int.toNat self.m_numberOfValues = data.length := by
    rw [← hlen]; exact Int.toNat_natCast _
  simp [updateModule, hopen, hlen, hcount, hloop, OFStream.write, OFStream.endl,
    String.append_assoc, rowText]

/-- Whatever the state and whatever the port read, `updateModule` runs to its
end without reading outside the vector, leaves every member but the stream as
it was, and only adds text at the end of the file. -/
theorem updateModule_frame [Sub D] (fmt : D → String) (now : D) (read : Option (List D))
    (self : WalkingLoggerModule D) :
    ∃ (ret : Bool) (added : String),
      updateModule fmt now read self
        = some (ret, { self with
            m_stream := { self.m_stream with
              contents := self.m_stream.contents ++ added } }) := by
  cases read with
  | none => exact ⟨true, "", by simp [updateModule_none]⟩
  | some data =>
    cases hopen : self.m_stream.is_open with
    | false => exact ⟨false, "", by simp [updateModule_closed fmt now data self hopen]⟩
    | true =>
      by_cases hlen : (data.length : Int) = self.m_numberOfValues
      · exact ⟨true, rowText fmt (now - self.m_time0) data, by
          rw [updateModule_accept fmt now data self hopen hlen]⟩
      · exact ⟨false, "", by simp [updateModule_mismatch fmt now data self hopen hlen]⟩

/-- What `respond` does for each reading of token 0 and each state of the
stream, apart from the accepted `record` (see `respond_record_closed`). -/
theorem respond_unchanged (now : D) (tm : Tm) (granted : Bool)
    (self : WalkingLoggerModule D) (command reply : Bottle)
    (h : ¬ ((Bottle.get command 0).asString = "record" ∧ self.m_stream.is_open = false)) :
    (respond now tm granted self command reply).self
      = { self with m_stream := { self.m_stream with
            is_open := self.m_stream.is_open
              && !decide ((Bottle.get command 0).asString = "quit") } } := by
  have hq : ¬ ("record" = "quit") := by decide
  rcases self with ⟨dT, ⟨isOpen, path, contents⟩, dataPort, rpcPort, count, time0, name⟩
  by_cases hquit : (Bottle.get command 0).asString = "quit"
  · cases isOpen <;> simp [respond, hquit, OFStream.close]
  · by_cases hrec : (Bottle.get command 0).asString = "record"
    · cases isOpen
      · exact absurd ⟨hrec, rfl⟩ h
      · simp [respond, hrec, hq]
    · simp [respond, hquit, hrec]

/-! ## The claims, continued -/

/-- C13: for every command and every state, `respond` called with an empty reply
leaves a reply made of exactly one integer, 1 or 0; it is 1 exactly when the
command is `quit` on an open session or `record` on a closed session, and 0 in
every other case. -/
theorem reply_single_status (now : D) (tm : Tm) (granted : Bool)
    (self : WalkingLoggerModule D) (command : Bottle) :
    (respond now tm granted self command []).reply
      = [Value.int
          (if ((Bottle.get command 0).asString = "quit" ∧ self.m_stream.is_open = true)
              ∨ ((Bottle.get command 0).asString = "record" ∧ self.m_stream.is_open = false)
           then 1 else 0)] := by
  have hq : ¬ ("record" = "quit") := by decide
  by_cases hquit : (Bottle.get command 0).asString = "quit"
  · cases hopen : self.m_stream.is_open <;> simp [respond, hquit, hopen, Bottle.addInt]
  · by_cases hrec : (Bottle.get command 0).asString = "record"
    · cases hopen : self.m_stream.is_open <;> simp [respond, hrec, hopen, hq, Bottle.addInt]
    · simp [respond, hquit, hrec, Bottle.addInt]

/-- C14: the schema is fixed while a session is open. On an open session every
tick (no vector, or a vector of any length) and every command leave the count
and the start time as they were and keep what is already in the sink, header
line included, a tick adding at most text after it. In any state at all, a
command that changes the count, the start time or the text already in the sink
is a `record` that was accepted on a closed session, and no tick changes the
count or the start time. -/
theorem schema_immutable [Sub D] (self : WalkingLoggerModule D)
    (hopen : self.m_stream.is_open = true) :
    (∀ (fmt : D → String) (now : D) (read : Option (List D)),
        ∃ (ret : Bool) (added : String),
          updateModule fmt now read self
            = some (ret, { self with
                m_stream := { self.m_stream with
                  contents := self.m_stream.contents ++ added } }))
      ∧ (∀ (now : D) (tm : Tm) (granted : Bool) (command reply : Bottle),
          (respond now tm granted self command reply).self.m_numberOfValues
              = self.m_numberOfValues
            ∧ (respond now tm granted self command reply).self.m_time0 = self.m_time0
            ∧ (respond now tm granted self command reply).self.m_stream.contents
                = self.m_stream.contents
            ∧ (respond now tm granted self command reply).self.m_stream.path
                = self.m_stream.path)
      ∧ (∀ (other : WalkingLoggerModule D) (now : D) (tm : Tm) (granted : Bool)
          (command reply : Bottle),
          ((respond now tm granted other command reply).self.m_numberOfValues
                ≠ other.m_numberOfValues
            ∨ (respond now tm granted other command reply).self.m_time0 ≠ other.m_time0
            ∨ (respond now tm granted other command reply).self.m_stream.contents
                ≠ other.m_stream.contents) →
          (Bottle.get command 0).asString = "record" ∧ other.m_stream.is_open = false
            ∧ (respond now tm granted other command reply).ret = true)
      ∧ (∀ (other : WalkingLoggerModule D) (fmt : D → String) (now : D)
          (read : Option (List D)) (ret : Bool) (next : WalkingLoggerModule D),
          updateModule fmt now read other = some (ret, next) →
            next.m_numberOfValues = other.m_numberOfValues ∧ next.m_time0 = other.m_time0) := by
  refine ⟨fun fmt now read => updateModule_frame fmt now read self, ?_, ?_, ?_⟩
  · intro now tm granted command reply
    rw [respond_unchanged now tm granted self command reply (by simp [hopen])]
    simp
  · intro other now tm granted command reply hchange
    by_cases h : (Bottle.get command 0).asString = "record" ∧ other.m_stream.is_open = false
    · refine ⟨h.1, h.2, ?_⟩
      rw [record_command_shape command h.1]
      cases granted with
      | true => rw [respond_record_closed now tm other command.tail reply h.2]
      | false => rw [respond_record_refused now tm other command.tail reply h.2]
    · rw [respond_unchanged now tm granted other command reply h] at hchange
      simp at hchange
  · intro other fmt now read ret next hstep
    obtain ⟨ret1, added, hframe⟩ := updateModule_frame fmt now read other
    rw [hframe] at hstep
    simp only [Option.some.injEq, Prod.mk.injEq] at hstep
    rw [← hstep.2]
    exact ⟨rfl, rfl⟩

theorem schema_immutable_witness :
    openModule.m_stream.is_open = true
      ∧ (respond (250 : Int) someTm true openModule
            [Value.string "record", Value.string "z"] []).self.m_numberOfValues = 2
      ∧ (respond (250 : Int) someTm true openModule
            [Value.string "record", Value.string "z"] []).self.m_time0 = 100 :=
  ⟨rfl,
    ((schema_immutable openModule rfl).2.1 (250 : Int) someTm true
      [Value.string "record", Value.string "z"] []).1,
    ((schema_immutable openModule rfl).2.1 (250 : Int) someTm true
      [Value.string "record", Value.string "z"] []).2.1⟩

/-- C15: the count and the start time are not read while the session is closed.
Take a closed state and the same state with other values `n`, `t` in those two
members. Every command then gives the same return value and the same reply in
both, and the two resulting modules differ at most in those two members and are
equal as soon as the command opened a session; every tick gives the same return
value in both and leaves both states as they were. -/
theorem stale_fields_unread [Sub D] (self : WalkingLoggerModule D) (n : Int) (t : D)
    (hclosed : self.m_stream.is_open = false) :
    (∀ (now : D) (tm : Tm) (granted : Bool) (command reply : Bottle),
        (respond now tm granted { self with m_numberOfValues := n, m_time0 := t } command reply).ret
            = (respond now tm granted self command reply).ret
          ∧ (respond now tm granted { self with m_numberOfValues := n, m_time0 := t } command reply).reply
            = (respond now tm granted self command reply).reply
          ∧ (respond now tm granted { self with m_numberOfValues := n, m_time0 := t } command reply).self
            = { (respond now tm granted self command reply).self with
                m_numberOfValues :=
                  (respond now tm granted { self with m_numberOfValues := n, m_time0 := t }
                    command reply).self.m_numberOfValues
                m_time0 :=
                  (respond now tm granted { self with m_numberOfValues := n, m_time0 := t }
                    command reply).self.m_time0 }
          ∧ ((respond now tm granted self command reply).self.m_stream.is_open = true →
              (respond now tm granted { self with m_numberOfValues := n, m_time0 := t }
                  command reply).self
                = (respond now tm granted self command reply).self))
      ∧ (∀ (fmt : D → String) (now : D) (read : Option (List D)),
          ∃ ret : Bool,
            updateModule fmt now read self = some (ret, self)
              ∧ updateModule fmt now read { self with m_numberOfValues := n, m_time0 := t }
                  = some (ret, { self with m_numberOfValues := n, m_time0 := t })) := by
  constructor
  · intro now tm granted command reply
    have hq : ¬ ("record" = "quit") := by decide
    by_cases hquit : (Bottle.get command 0).asString = "quit"
    · simp [respond, hquit, hclosed]
    · by_cases hrec : (Bottle.get command 0).asString = "record"
      · cases granted <;>
          simp [respond, hrec, hclosed, hq, OFStream.open, OFStream.write, OFStream.endl]
      · simp [respond, hquit, hrec, hclosed]
  · intro fmt now read
    cases read with
    | none => exact ⟨true, updateModule_none fmt now self, updateModule_none fmt now _⟩
    | some data =>
      exact ⟨false, updateModule_closed fmt now data self hclosed,
        updateModule_closed fmt now data _ hclosed⟩

theorem stale_fields_unread_witness :
    closedModule.m_stream.is_open = false
      ∧ (respond (250 : Int) someTm true
            { closedModule with m_numberOfValues := 40, m_time0 := 9 }
            [Value.string "record", Value.string "x"] []).self
        = (respond (250 : Int) someTm true closedModule
            [Value.string "record", Value.string "x"] []).self :=
  ⟨rfl,
    ((stale_fields_unread closedModule 40 (9 : Int) rfl).1 (250 : Int) someTm true
      [Value.string "record", Value.string "x"] []).2.2.2 rfl⟩

/-- C16: `close` does not do what the claim says. Its statements close the
stream if it is open and keep the file, its text, the count and the start time,
and running them twice leaves the same module as running them once; but the
body then ends without the `return` its `bool` type requires, so that for every
state the call has no defined result. -/
theorem close_has_no_result (self : WalkingLoggerModule D) :
    close self = none
      ∧ (closeStatements self).m_stream = { self.m_stream with is_open := false }
      ∧ (closeStatements self).m_numberOfValues = self.m_numberOfValues
      ∧ (closeStatements self).m_time0 = self.m_time0
      ∧ closeStatements (closeStatements self) = closeStatements self := by
  rcases self with ⟨dT, ⟨isOpen, path, contents⟩, dataPort, rpcPort, count, time0, name⟩
  cases isOpen <;> simp [close, closeStatements, OFStream.close]

/-- A lookup that never yields a string is either missing or yields a value
that is not a string. -/
theorem not_string_cases (found : Option Value)
    (h : ∀ text : String, found ≠ some (Value.string text)) :
    found = none ∨ ∃ w : Value, found = some w ∧ w.isString = false := by
  cases found with
  | none => exact Or.inl rfl
  | some w =>
    cases w with
    | string text => exact absurd rfl (h text)
    | null => exact Or.inr ⟨_, rfl, rfl⟩
    | int i => exact Or.inr ⟨_, rfl, rfl⟩
    | list l => exact Or.inr ⟨_, rfl, rfl⟩

/-- The return value of `configure` once the configuration is not null and
`name` is a string, read off the two other required lookups. -/
theorem configure_named [OfScientific D] (asDouble : Value → D) (rf : ResourceFinder)
    (self : WalkingLoggerModule D) (name : String) (hnull : rf.isNull = false)
    (hname : rf.check "name" = some (Value.string name)) :
    (configure asDouble rf self).map Prod.fst
      = some ((rf.check "data_port_name").any Value.isString
          && (rf.check "rpc_port_name").any Value.isString) := by
  have hn : (Value.string name).isString = true := rfl
  unfold configure
  simp only [hnull, hname, hn, Bool.false_eq_true, if_false, Bool.not_true]
  cases rf.check "data_port_name" with
  | none => simp
  | some v2 =>
    cases h2 : v2.isString with
    | false => simp [h2]
    | true =>
      cases rf.check "rpc_port_name" with
      | none => simp [h2]
      | some v3 => cases h3 : v3.isString <;> simp [h2, h3]

/-- The module `configure` leaves, and its return value true, when the three
required fields are strings. -/
theorem configure_complete [OfScientific D] (asDouble : Value → D) (rf : ResourceFinder)
    (self : WalkingLoggerModule D) (name dataPort rpcPort : String)
    (hnull : rf.isNull = false)
    (hname : rf.check "name" = some (Value.string name))
    (hdata : rf.check "data_port_name" = some (Value.string dataPort))
    (hrpc : rf.check "rpc_port_name" = some (Value.string rpcPort)) :
    configure asDouble rf self
      = some (true, { self with
          name := name
          m_dataPort := some ("/" ++ name ++ dataPort)
          m_rpcPort := some ("/" ++ name ++ rpcPort)
          m_dT := match rf.check "sampling_time" with
            | some v => asDouble v
            | none => 0.005 }) := by
  simp [configure, hnull, hname, hdata, hrpc, Value.isString, Value.asString]

/-- C17: `configure` does not do all the claim says. It returns false on a null
configuration, and, once `name` is a string, when `data_port_name` or
`rpc_port_name` is missing or not a string; with the three fields present as
strings it returns true and `getPeriod` then gives the value stored under
`sampling_time`, read as a `double`, or 0.005 when that field is absent. But
when `name` is missing or not a string it calls `close`, whose body ends
without a `return`: there the call has no defined result instead of returning
false. -/
theorem configure_result [OfScientific D] (asDouble : Value → D) (rf : ResourceFinder)
    (self : WalkingLoggerModule D) :
    (rf.isNull = true → configure asDouble rf self = some (false, self))
      ∧ (rf.isNull = false → (∀ text : String, rf.check "name" ≠ some (Value.string text)) →
          configure asDouble rf self = none)
      ∧ (∀ name : String, rf.isNull = false → rf.check "name" = some (Value.string name) →
          ∀ key : String, key ∈ ["data_port_name", "rpc_port_name"] →
            (∀ text : String, rf.check key ≠ some (Value.string text)) →
            ∃ next : WalkingLoggerModule D, configure asDouble rf self = some (false, next))
      ∧ (∀ name dataPort rpcPort : String, rf.isNull = false →
          rf.check "name" = some (Value.string name) →
          rf.check "data_port_name" = some (Value.string dataPort) →
          rf.check "rpc_port_name" = some (Value.string rpcPort) →
          ∃ next : WalkingLoggerModule D,
            configure asDouble rf self = some (true, next)
              ∧ (∀ v : Value, rf.check "sampling_time" = some v → getPeriod next = asDouble v)
              ∧ (rf.check "sampling_time" = none → getPeriod next = 0.005)) := by
  refine ⟨?_, ?_, ?_, ?_⟩
  · intro hnull
    simp [configure, hnull]
  · intro hnull hnot
    rcases not_string_cases (rf.check "name") hnot with h | ⟨w, h, hw⟩
    · simp [configure, hnull, h, close]
    · simp [configure, hnull, h, hw, close]
  · intro name hnull hname key hkey hnot
    have hany : (rf.check key).any Value.isString = false := by
      rcases not_string_cases (rf.check key) hnot with h | ⟨w, h, hw⟩
      · simp [h]
      · simp [h, hw]
    have hret := configure_named asDouble rf self name hnull hname
    have hfalse : ((rf.check "data_port_name").any Value.isString
        && (rf.check "rpc_port_name").any Value.isString) = false := by
      simp only [List.mem_cons, List.mem_singleton, List.not_mem_nil, or_false] at hkey
      rcases hkey with hkey | hkey <;> subst hkey <;> simp [hany]
    rw [hfalse] at hret
    obtain ⟨⟨ret, next⟩, hsome, hfst⟩ := Option.map_eq_some'.mp hret
    simp only at hfst
    subst hfst
    exact ⟨next, hsome⟩
  · intro name dataPort rpcPort hnull hname hdata hrpc
    refine ⟨_, configure_complete asDouble rf self name dataPort rpcPort hnull hname hdata hrpc,
      ?_, ?_⟩
    · intro v hv
      simp [getPeriod, hv]
    · intro hv
      simp [getPeriod, hv]

theorem configure_result_witness :
    namelessConfig.isNull = false
      ∧ (∀ text : String, namelessConfig.check "name" ≠ some (Value.string text))
      ∧ configure asRat namelessConfig freshModule = none :=
  ⟨rfl, fun _ h => Option.noConfusion h,
    (configure_result asRat namelessConfig freshModule).2.1 rfl
      (fun _ h => Option.noConfusion h)⟩

/-- A number below 100 is padded to exactly two decimal digits. -/
theorem pad2_two_digits (n : Nat) (h : n < 100) : pad2 n = twoDigits n := by
  interval_cases n <;> rfl

/-- C18: a `record` accepted on a closed session at the local calendar time
`tm`, the file system granting the file, creates the file
`Dataset_<year>_<MM>_<DD>_<HH>_<mm>_<SS>.txt`: the prefix
`Dataset_`, the year in decimal, then month, day, hour, minute and second on
exactly two digits each, joined by underscores, then `.txt`. Any other accepted
`record` at the same calendar time, whatever its column names, clock reading
and earlier state, creates a file of the same name. -/
theorem file_name_from_calendar (now : D) (tm : Tm) (self : WalkingLoggerModule D)
    (command reply : Bottle) (hclosed : self.m_stream.is_open = false)
    (hcmd : (Bottle.get command 0).asString = "record")
    (hmon : tm.tm_mon ≤ 11) (hday : tm.tm_mday ≤ 31) (hhour : tm.tm_hour ≤ 23)
    (hmin : tm.tm_min ≤ 59) (hsec : tm.tm_sec ≤ 60) :
    (respond now tm true self command reply).self.m_stream.path
        = "Dataset_" ++ toString (tm.tm_year + 1900) ++ "_" ++ twoDigits (tm.tm_mon + 1)
            ++ "_" ++ twoDigits tm.tm_mday ++ "_" ++ twoDigits tm.tm_hour
            ++ "_" ++ twoDigits tm.tm_min ++ "_" ++ twoDigits tm.tm_sec ++ ".txt"
      ∧ ∀ (now2 : D) (self2 : WalkingLoggerModule D) (command2 reply2 : Bottle),
          self2.m_stream.is_open = false → (Bottle.get command2 0).asString = "record" →
          (respond now2 tm true self2 command2 reply2).self.m_stream.path
            = (respond now tm true self command reply).self.m_stream.path := by
  have hpath : ∀ (now2 : D) (self2 : WalkingLoggerModule D) (command2 reply2 : Bottle),
      self2.m_stream.is_open = false → (Bottle.get command2 0).asString = "record" →
      (respond now2 tm true self2 command2 reply2).self.m_stream.path
        = "Dataset_" ++ put_time tm ++ ".txt" := by
    intro now2 self2 command2 reply2 hclosed2 hcmd2
    rw [record_command_shape command2 hcmd2,
      respond_record_closed now2 tm self2 command2.tail reply2 hclosed2]
  constructor
  · rw [hpath now self command reply hclosed hcmd, put_time,
      pad2_two_digits (tm.tm_mon + 1) (by omega), pad2_two_digits tm.tm_mday (by omega),
      pad2_two_digits tm.tm_hour (by omega), pad2_two_digits tm.tm_min (by omega),
      pad2_two_digits tm.tm_sec (by omega)]
    simp only [String.append_assoc]
  · intro now2 self2 command2 reply2 hclosed2 hcmd2
    rw [hpath now2 self2 command2 reply2 hclosed2 hcmd2, hpath now self command reply hclosed hcmd]

theorem file_name_from_calendar_witness :
    closedModule.m_stream.is_open = false
      ∧ (Bottle.get [Value.string "record", Value.string "x"] 0).asString = "record"
      ∧ someTm.tm_mon ≤ 11 ∧ someTm.tm_mday ≤ 31 ∧ someTm.tm_hour ≤ 23
      ∧ someTm.tm_min ≤ 59 ∧ someTm.tm_sec ≤ 60
      ∧ (respond (250 : Int) someTm true closedModule
            [Value.string "record", Value.string "x"] []).self.m_stream.path
          = "Dataset_2018_01_03_09_08_07.txt" :=
  ⟨rfl, rfl, by decide, by decide, by decide, by decide, by decide,
    (file_name_from_calendar (250 : Int) someTm closedModule
      [Value.string "record", Value.string "x"] [] rfl rfl
      (by decide) (by decide) (by decide) (by decide) (by decide)).1⟩

/-- The checked header loop over the tokens `rest` that follow the first
`i + 1` tokens never leaves the bottle and computes what the loop computes. -/
theorem headLoopChecked_append (rest : List Value) :
    ∀ (pre : List Value) (i : Nat) (head : String), pre.length = i + 1 →
      headLoopChecked (pre ++ rest) rest.length i head
        = some (headLoop (pre ++ rest) rest.length i head) := by
  induction rest with
  | nil => intro pre i head _; simp [headLoopChecked, headLoop]
  | cons v rest ih =>
    intro pre i head hpre
    have hget : (pre ++ v :: rest)[i + 1]? = some v := by
      rw [← hpre, List.getElem?_append_right (Nat.le_refl _)]; simp
    have hget2 : Bottle.get (pre ++ v :: rest) (i + 1) = v := by
      rw [← hpre]; exact get_append_length pre rest v
    have hsplit : pre ++ v :: rest = (pre ++ [v]) ++ rest := by simp
    simp only [List.length_cons, headLoopChecked, headLoop, hget, hget2]
    rw [hsplit, ih (pre ++ [v]) (i + 1) _ (by simp [hpre])]

/-- C20: every indexed access is in bounds. In `respond`, for a command whose
token 0 reads `record`, the count `command.size() - 1` is not negative, every
index `i + 1` with `i` below the count lies inside the command, and the header
loop with every access checked runs to its end with the same text. In
`updateModule`, once the stream is open and the vector has the expected length,
every index below the count lies inside the vector and the write loop runs to
its end; and whatever the state and the port read, `updateModule` never reads
outside the vector. -/
theorem accesses_in_bounds [Sub D] :
    (∀ command : Bottle, (Bottle.get command 0).asString = "record" →
        0 ≤ Bottle.size command - 1
          ∧ (∀ i : Nat, i < Int.toNat (Bottle.size command - 1) → i + 1 < command.length)
          ∧ headLoopChecked command (Int.toNat (Bottle.size command - 1)) 0 "time "
              = some (headLoop command (Int.toNat (Bottle.size command - 1)) 0 "time "))
      ∧ (∀ (fmt : D → String) (now : D) (data : List D) (self : WalkingLoggerModule D),
          self.m_stream.is_open = true → (data.length : Int) = self.m_numberOfValues →
          (∀ i : Nat, i < Int.toNat self.m_numberOfValues → i < data.length)
            ∧ ∃ st : OFStream,
                writeLoop fmt data (Int.toNat self.m_numberOfValues) 0
                    ((self.m_stream.write (fmt (now - self.m_time0))).write " ")
                  = some st)
      ∧ (∀ (fmt : D → String) (now : D) (read : Option (List D))
          (self : WalkingLoggerModule D),
          ∃ result : Bool × WalkingLoggerModule D,
            updateModule fmt now read self = some result) := by
  refine ⟨?_, ?_, ?_⟩
  · intro command hcmd
    have hshape := record_command_shape command hcmd
    have hsize : Bottle.size command - 1 = (command.tail.length : Int) := by
      rw [hshape]; simp [Bottle.size]
    have hlen : command.length = command.tail.length + 1 := by
      conv_lhs => rw [hshape]
      simp
    refine ⟨by rw [hsize]; exact Int.natCast_nonneg _, ?_, ?_⟩
    · intro i hi
      rw [hsize, Int.toNat_natCast] at hi
      omega
    · rw [hsize, Int.toNat_natCast]
      have h := headLoopChecked_append command.tail [Value.string "record"] 0 "time " rfl
      rw [List.singleton_append, ← hshape] at h
      exact h
  · intro fmt now data self hopen hlen
    have hcount : Int.toNat self.m_numberOfValues = data.length := by
      rw [← hlen]; exact Int.toNat_natCast _
    refine ⟨fun i hi => by omega, ?_⟩
    have h := writeLoop_append fmt data [] 0
      ((self.m_stream.write (fmt (now - self.m_time0))).write " ") rfl
      (by simp [OFStream.write, hopen])
    rw [List.nil_append] at h
    rw [hcount]
    exact ⟨_, h⟩
  · intro fmt now read self
    obtain ⟨ret, added, h⟩ := updateModule_frame fmt now read self
    exact ⟨_, h⟩

theorem accesses_in_bounds_witness :
    (Bottle.get [Value.string "record", Value.string "x", Value.string "y"] 0).asString
        = "record"
      ∧ headLoopChecked [Value.string "record", Value.string "x", Value.string "y"]
          (Int.toNat (Bottle.size [Value.string "record", Value.string "x", Value.string "y"]
            - 1)) 0 "time "
        = some "time x y " :=
  ⟨rfl,
    (((@accesses_in_bounds Int _).1
      [Value.string "record", Value.string "x", Value.string "y"] rfl).2.2).trans rfl⟩

/-! ## Runs: the sink follows the observer's record -/

/-- The clock readings of the accepted ticks are picked, in order, among the
clock readings of all ticks. -/
theorem acceptedTicks_sublist (count : Int) (ticks : List (D × Option (List D))) :
    List.Sublist ((acceptedTicks count ticks).map Prod.fst) (ticks.map Prod.fst) := by
  induction ticks with
  | nil => exact List.Sublist.slnil
  | cons p rest ih =>
    rcases p with ⟨now, read⟩
    cases read with
    | none => simpa [acceptedTicks, List.filterMap_cons] using ih.cons now
    | some data =>
      by_cases hlen : (data.length : Int) = count
      · simpa [acceptedTicks, List.filterMap_cons, hlen] using ih.cons₂ now
      · simpa [acceptedTicks, List.filterMap_cons, hlen] using ih.cons now

/-- On an open session, a run of ticks goes through and appends one data line
per tick that carries a vector of the expected length, in order, each with the
elapsed time since the start time of the session. -/
theorem run_ticks_open [Sub D] (fmt : D → String) (ticks : List (D × Option (List D))) :
    ∀ self : WalkingLoggerModule D, self.m_stream.is_open = true →
      ∃ outs : List Outcome,
        run fmt (ticks.map (fun p => Event.tick p.1 p.2)) self
          = some (outs, { self with
              m_stream := { self.m_stream with
                contents := self.m_stream.contents
                  ++ String.join ((acceptedTicks self.m_numberOfValues ticks).map
                      (fun p => rowText fmt (p.1 - self.m_time0) p.2)) } }) := by
  induction ticks with
  | nil =>
    intro self _
    exact ⟨[], by simp [run, acceptedTicks, join_nil]⟩
  | cons p rest ih =>
    intro self hopen
    rcases p with ⟨now, read⟩
    cases read with
    | none =>
      obtain ⟨outs, hrest⟩ := ih self hopen
      exact ⟨Outcome.ticked true :: outs, by
        simp [run, step, updateModule_none, hrest, acceptedTicks, List.filterMap_cons]⟩
    | some data =>
      by_cases hlen : (data.length : Int) = self.m_numberOfValues
      · obtain ⟨outs, hrest⟩ := ih
          { self with
            m_stream := { self.m_stream with
              contents := self.m_stream.contents ++ rowText fmt (now - self.m_time0) data } }
          hopen
        refine ⟨Outcome.ticked true :: outs, ?_⟩
        simp only [List.map_cons, run, step, updateModule_accept fmt now data self hopen hlen,
          hrest]
        simp [acceptedTicks, List.filterMap_cons, hlen, join_cons, String.append_assoc]
      · obtain ⟨outs, hrest⟩ := ih self hopen
        exact ⟨Outcome.ticked false :: outs, by
          simp [run, step, updateModule_mismatch fmt now data self hopen hlen, hrest,
            acceptedTicks, List.filterMap_cons, hlen]⟩

/-- A run is its first call followed by the run of the other calls. -/
theorem run_cons [Sub D] (fmt : D → String) (e : Event D) (rest : List (Event D))
    (self next last : WalkingLoggerModule D) (o : Outcome) (os : List Outcome)
    (hstep : step fmt e self = some (o, next))
    (hrest : run fmt rest next = some (os, last)) :
    run fmt (e :: rest) self = some (o :: os, last) := by
  simp only [run, hstep, hrest]

/-- A run that starts with a `record` accepted on a closed session at `T0`, the
file being granted, and goes on with ticks: it goes through, and the sink holds
the header line and one
data line per tick that carried a vector of the expected length, with the
elapsed time counted from `T0`. -/
theorem run_record_then_ticks [Sub D] (fmt : D → String) (T0 : D) (tm : Tm)
    (self : WalkingLoggerModule D) (command : Bottle)
    (ticks : List (D × Option (List D)))
    (hclosed : self.m_stream.is_open = false)
    (hcmd : (Bottle.get command 0).asString = "record") :
    ∃ (outs : List Outcome) (last : WalkingLoggerModule D),
      run fmt (Event.command T0 tm true command :: ticks.map (fun p => Event.tick p.1 p.2)) self
          = some (outs, last)
        ∧ last.m_stream.contents
            = headerText (command.tail.map Value.asString)
                ++ String.join ((acceptedTicks (command.tail.length : Int) ticks).map
                    (fun p => rowText fmt (p.1 - T0) p.2)) := by
  have hshape := record_command_shape command hcmd
  have hres := respond_record_closed T0 tm self command.tail [] hclosed
  rw [← hshape] at hres
  obtain ⟨outs, hrest⟩ := run_ticks_open fmt ticks
    { self with
      m_numberOfValues := (command.tail.length : Int)
      m_time0 := T0
      m_stream :=
        { is_open := true, path := "Dataset_" ++ put_time tm ++ ".txt",
          contents :=
            "time " ++ String.join (command.tail.map (fun v => v.asString ++ " ")) ++ "\n" } }
    rfl
  have hstep : step fmt (Event.command T0 tm true command) self
      = some (Outcome.replied true (Bottle.addInt [] 1),
          { self with
            m_numberOfValues := (command.tail.length : Int)
            m_time0 := T0
            m_stream :=
              { is_open := true, path := "Dataset_" ++ put_time tm ++ ".txt",
                contents :=
                  "time " ++ String.join (command.tail.map (fun v => v.asString ++ " "))
                    ++ "\n" } }) := by
    simp only [step, hres]
  refine ⟨_, _, run_cons fmt _ _ _ _ _ _ _ hstep hrest, ?_⟩
  simp [headerText, List.map_map, Function.comp_def]

/-- C11: time taken in an ordered additive group (the rationals, the reals).
After a `record` that opened a session at `T0`, a first vector of the
expected length received at `T1` is written with the elapsed time `T1 - T0`; and
over any run of ticks of that session the data lines carry, in order, the
elapsed times `t - T0` of the accepted ticks, which are non-decreasing whenever
the clock readings of the ticks are. -/
theorem elapsed_time_monotone [LinearOrderedAddCommGroup D] (fmt : D → String) (T0 : D)
    (tm : Tm) (self : WalkingLoggerModule D) (command : Bottle)
    (hclosed : self.m_stream.is_open = false)
    (hcmd : (Bottle.get command 0).asString = "record") :
    (∀ (T1 : D) (data : List D), data.length = command.tail.length →
        ∃ (outs : List Outcome) (last : WalkingLoggerModule D),
          run fmt [Event.command T0 tm true command, Event.tick T1 (some data)] self
              = some (outs, last)
            ∧ last.m_stream.contents
                = headerText (command.tail.map Value.asString) ++ rowText fmt (T1 - T0) data)
      ∧ (∀ ticks : List (D × Option (List D)),
          ∃ (outs : List Outcome) (last : WalkingLoggerModule D),
            run fmt (Event.command T0 tm true command :: ticks.map (fun p => Event.tick p.1 p.2))
                self
                = some (outs, last)
              ∧ last.m_stream.contents
                  = headerText (command.tail.map Value.asString)
                      ++ String.join ((acceptedTicks (command.tail.length : Int) ticks).map
                          (fun p => rowText fmt (p.1 - T0) p.2))
              ∧ (List.Pairwise (fun a b => a ≤ b) (ticks.map Prod.fst) →
                  List.Pairwise (fun a b => a ≤ b)
                    ((acceptedTicks (command.tail.length : Int) ticks).map
                      (fun p => p.1 - T0)))) := by
  constructor
  · intro T1 data hlen
    obtain ⟨outs, last, hrun, hcontents⟩ :=
      run_record_then_ticks fmt T0 tm self command [(T1, some data)] hclosed hcmd
    refine ⟨outs, last, hrun, ?_⟩
    rw [hcontents]
    simp [acceptedTicks, hlen, join_cons, join_nil]
  · intro ticks
    obtain ⟨outs, last, hrun, hcontents⟩ :=
      run_record_then_ticks fmt T0 tm self command ticks hclosed hcmd
    refine ⟨outs, last, hrun, hcontents, ?_⟩
    intro hsorted
    have hsub := hsorted.sublist (acceptedTicks_sublist (command.tail.length : Int) ticks)
    rw [List.pairwise_map] at hsub ⊢
    exact hsub.imp (fun h => sub_le_sub_right h T0)

theorem elapsed_time_monotone_witness :
    closedModule.m_stream.is_open = false
      ∧ (Bottle.get [Value.string "record", Value.string "x", Value.string "y"] 0).asString
          = "record"
      ∧ List.Pairwise (fun a b => a ≤ b)
          (([(130, some [7, 9]), (140, some [1]), (150, some [2, 4])] :
            List (Int × Option (List Int))).map Prod.fst)
      ∧ List.Pairwise (fun a b => a ≤ b)
          ((acceptedTicks
              (([Value.string "record", Value.string "x", Value.string "y"] : Bottle).tail.length
                : Int)
              ([(130, some [7, 9]), (140, some [1]), (150, some [2, 4])] :
                List (Int × Option (List Int)))).map
            (fun p => p.1 - 100)) :=
  ⟨rfl, rfl, by decide,
    ((elapsed_time_monotone fmtInt (100 : Int) someTm closedModule
        [Value.string "record", Value.string "x", Value.string "y"] rfl rfl).2
      [(130, some [7, 9]), (140, some [1]), (150, some [2, 4])]).elim
      (fun _ h => h.elim (fun _ h2 => h2.2.2 (by decide)))⟩

end WalkingLogger
